import Mathlib

/-!
Verification development for the MAE article scraper
(`externe/scraper/article.py`).

The file shallowly embeds the `Article` class: strings are lists of
characters, Python exceptions are `Except String` values carrying the
exception class name, configuration read from `scraper.settings`
(`TYPES`, `MONTHS`, `MAE_BASE_URL`, `MANDATORY_FIELDS`) is an explicit
`Settings` record, and the BeautifulSoup row/cell/anchor accessors are a
small record model of the HTML fragments the code reads.

The regular expressions of the class (`DATE_REGX`, `TIMEDELTA_REGX` and
the four `CONTACT_REGX` entries) are embedded as abstract syntax trees
for a backtracking matcher (`mtch`/`searchFrom`) that reproduces the
semantics of Python `re.search`: leftmost match, alternatives tried left
to right, greedy and lazy quantifiers, numbered capture groups keeping
the last captured value.  The matcher is total via a fuel parameter that
strictly exceeds the depth of any backtracking path: every recursive
call either shrinks the pattern or strictly shrinks the subject string,
so a path is never longer than `(reSize re + 1) * (length s + 2)`.
-/

set_option maxRecDepth 4000

namespace Externe

/-- Strings of the embedded program: Python `str` as a list of characters. -/
abbrev Str := List Char

/-- Whitespace as matched by Python `str.strip()` and the regex class `\s`
(ASCII whitespace plus the unicode whitespace characters relevant here). -/
def pySpace (c : Char) : Bool :=
  c == ' ' || c == '\t' || c == '\n' || c == '\r' || c == '\x0b' || c == '\x0c' ||
    c == '\u0085' || c == ' '

/-- Drop trailing characters satisfying `p`. -/
def dropTrailing (p : Char → Bool) (s : Str) : Str :=
  (s.reverse.dropWhile p).reverse

/-- Python `str.strip()`: remove leading and trailing whitespace. -/
def pyStrip (s : Str) : Str :=
  dropTrailing pySpace (s.dropWhile pySpace)

/-- Python `str.rstrip('\n')`: remove trailing newline characters only. -/
def rstripNewline (s : Str) : Str :=
  dropTrailing (fun c => c == '\n') s

/-- Python `int(...)` on a string of decimal digits (all regex captures fed
to `int` in the source are digit runs). -/
def strToNat (s : Str) : Nat :=
  s.foldl (fun n c => 10 * n + (c.toNat - '0'.toNat)) 0

/-- Python `dict.get`: first entry of the association list with the given
key, `None` on a miss. -/
def dictGet {β : Type} (k : Str) : List (Str × β) → Option β
  | [] => none
  | p :: t => if p.1 = k then some p.2 else dictGet k t

/-! ## Regular expressions

Abstract syntax for the fragment of Python `re` used by `Article`:
single-character classes, concatenation, alternation, greedy and lazy
repetition, and numbered groups (capturing groups record the text they
consumed; non-capturing `(?:...)` groups need no node at all). -/

inductive RE : Type where
  | eps : RE
  | cls : (Char → Bool) → RE
  | cat : RE → RE → RE
  | alt : RE → RE → RE
  | star : RE → Bool → RE
  | grp : Nat → RE → RE

/-- Capture environment: group number paired with captured text, most
recent capture first (Python keeps the last capture of a repeated group). -/
abbrev Caps := List (Nat × Str)

/-- All ways `re` can match a prefix of `s`, in Python backtracking
priority order, each with the remaining suffix and the captures.  The
`star` case only continues the repetition when the body consumed at
least one character, exactly like Python terminates a repetition on an
empty body match.  The boolean flag on `star` selects lazy (`true`,
`*?`) or greedy (`false`, `*`) priority. -/
def mtch : Nat → RE → Str → Caps → List (Str × Caps)
  | 0, _, _, _ => []
  | fuel + 1, re, s, caps =>
    match re with
    | .eps => [(s, caps)]
    | .cls p =>
      match s with
      | [] => []
      | c :: rest => if p c then [(rest, caps)] else []
    | .cat a b => (mtch fuel a s caps).flatMap (fun r => mtch fuel b r.1 r.2)
    | .alt a b => mtch fuel a s caps ++ mtch fuel b s caps
    | .star a lz =>
      let stay := [(s, caps)]
      let go := (mtch fuel a s caps).flatMap (fun r =>
        if r.1.length < s.length then mtch fuel (.star a lz) r.1 r.2 else [])
      if lz then stay ++ go else go ++ stay
    | .grp n a =>
      (mtch fuel a s caps).map (fun r => (r.1, (n, s.take (s.length - r.1.length)) :: r.2))

/-- Size of a pattern, used to compute a sufficient fuel. -/
def reSize : RE → Nat
  | .eps => 1
  | .cls _ => 1
  | .cat a b => reSize a + reSize b + 1
  | .alt a b => reSize a + reSize b + 1
  | .star a _ => reSize a + 1
  | .grp _ a => reSize a + 1

/-- Fuel strictly larger than the depth of any backtracking path of
`mtch re` on `s`. -/
def fuelFor (re : RE) (s : Str) : Nat :=
  (reSize re + 1) * (s.length + 2)

/-- First (highest-priority) match of `re` at the start of `s`:
Python `re.match` semantics at one position. -/
def reMatch (re : RE) (s : Str) : Option Caps :=
  ((mtch (fuelFor re s) re s []).head?).map (fun r => r.2)

/-- Python `re.search`: try every start position from the left, return
the captures of the first position (and there the first priority-ordered
alternative) that matches. -/
def searchFrom (re : RE) : Str → Option Caps
  | [] => reMatch re []
  | c :: t =>
    match reMatch re (c :: t) with
    | some caps => some caps
    | none => searchFrom re t

/-- `match.group(n)`: most recent capture of group `n`. -/
def capsGet (n : Nat) : Caps → Option Str
  | [] => none
  | p :: t => if p.1 = n then some p.2 else capsGet n t

/-! ### The concrete patterns of `Article` -/

/-- A single literal character. -/
def lit1 (c : Char) : RE := .cls (fun x => x == c)

/-- A literal string. -/
def litS (s : Str) : RE := s.foldr (fun c r => .cat (lit1 c) r) .eps

/-- Greedy `+`. -/
def rePlus (a : RE) : RE := .cat a (.star a false)

/-- Greedy `?`. -/
def reOpt (a : RE) : RE := .alt a .eps

/-- The class `\d` / `[0-9]`. -/
def digitC : RE := .cls Char.isDigit

/-- The class `[a-zA-Z]`. -/
def alphaC : RE := .cls Char.isAlpha

/-- The class `\s`. -/
def spaceC : RE := .cls pySpace

/-- `DATE_REGX = (\d+)\s([a-zA-Z]*)\s(\d{4})`. -/
def dateRE : RE :=
  .cat (.grp 1 (rePlus digitC))
    (.cat spaceC
      (.cat (.grp 2 (.star alphaC false))
        (.cat spaceC
          (.grp 3 (.cat digitC (.cat digitC (.cat digitC digitC)))))))

/-- `TIMEDELTA_REGX = (timp\sde\s([0-9]+)\szile)`. -/
def deltaRE : RE :=
  .grp 1 (.cat (litS "timp".data)
    (.cat spaceC
      (.cat (litS "de".data)
        (.cat spaceC
          (.cat (.grp 2 (rePlus digitC))
            (.cat spaceC (litS "zile".data)))))))

/-- The class `[a-zA-Z0-9\._]` of the email pattern. -/
def emailLocalC : RE := .cls (fun c => c.isAlpha || c.isDigit || c == '.' || c == '_')

/-- `CONTACT_REGX['email'] = \s(([a-zA-Z0-9\._]|\.)*?@[a-zA-Z]*?\.[a-zA-Z]*?)(?:\s|\.|,)`. -/
def emailRE : RE :=
  .cat spaceC
    (.cat (.grp 1 (.cat (.star (.grp 2 (.alt emailLocalC (lit1 '.'))) true)
        (.cat (lit1 '@')
          (.cat (.star alphaC true)
            (.cat (lit1 '.') (.star alphaC true))))))
      (.cls (fun c => pySpace c || c == '.' || c == ',')))

/-- The class `(?:\s|-|\.)` of the tel and fax patterns. -/
def telSepC : RE := .cls (fun c => pySpace c || c == '-' || c == '.')

/-- Shared tail `\s?:?\s*((\d+(?:\s|-|\.)?)+)(,|\s|\.)?` of the tel and
fax patterns. -/
def telTail : RE :=
  .cat (reOpt spaceC)
    (.cat (reOpt (lit1 ':'))
      (.cat (.star spaceC false)
        (.cat (.grp 1 (rePlus (.grp 2 (.cat (rePlus digitC) (reOpt telSepC)))))
          (reOpt (.grp 3 (.alt (lit1 ',') (.alt spaceC (lit1 '.'))))))))

/-- `CONTACT_REGX['tel'] = (?:tel|telefon)\s?:?\s*((\d+(?:\s|-|\.)?)+)(,|\s|\.)?`. -/
def telRE : RE := .cat (.alt (litS "tel".data) (litS "telefon".data)) telTail

/-- `CONTACT_REGX['fax'] = fax\s?:?\s*((\d+(?:\s|-|\.)?)+)(,|\s|\.)?`. -/
def faxRE : RE := .cat (litS "fax".data) telTail

/-- The class `.` (any character but a newline). -/
def dotC : RE := .cls (fun c => c != '\n')

/-- `CONTACT_REGX['addr'] = adresa poştală\s?a?\s*(.*?\scod(:|\s)?\d+)`. -/
def addrRE : RE :=
  .cat (litS "adresa poştală".data)
    (.cat (reOpt spaceC)
      (.cat (reOpt (lit1 'a'))
        (.cat (.star spaceC false)
          (.grp 1 (.cat (.star dotC true)
            (.cat spaceC
              (.cat (litS "cod".data)
                (.cat (reOpt (.grp 2 (.alt (lit1 ':') spaceC)))
                  (rePlus digitC)))))))))

/-- `re.search(DATE_REGX, p)` with the three captures `group(1)`,
`group(2)`, `group(3)` (all three always participate in a match). -/
def dateSearch (p : Str) : Option (Str × Str × Str) :=
  (searchFrom dateRE p).map (fun cs =>
    ((capsGet 1 cs).getD [], (capsGet 2 cs).getD [], (capsGet 3 cs).getD []))

/-- `re.search(TIMEDELTA_REGX, p)` with the capture `group(2)` (the day
count; it always participates in a match). -/
def deltaSearch (p : Str) : Option Str :=
  (searchFrom deltaRE p).map (fun cs => (capsGet 2 cs).getD [])

/-- `re.search(re, p)` followed by `group(1)`; in all four contact
patterns group 1 participates in every match, so the default is
unreachable. -/
def searchG1 (re : RE) (p : Str) : Option Str :=
  (searchFrom re p).map (fun cs => (capsGet 1 cs).getD [])

/-! ## Calendar dates

Python `datetime.date` objects: validated Gregorian dates in years
1..9999.  Only the proleptic-Gregorian ordinal matters for the
arithmetic the scraper performs (`date - date` yields a timedelta whose
`.days` is the ordinal difference, `date + timedelta(days=n)` shifts the
ordinal and raises `OverflowError` past `date.max`). -/

structure PyDate where
  year : Nat
  month : Nat
  day : Nat
deriving DecidableEq, Repr

/-- Gregorian leap year. -/
def isLeap (y : Nat) : Bool :=
  (y % 4 == 0 && y % 100 != 0) || y % 400 == 0

/-- The twelve month lengths of year `y`. -/
def monthLengths (y : Nat) : List Nat :=
  [31, if isLeap y then 29 else 28, 31, 30, 31, 30, 31, 31, 30, 31, 30, 31]

/-- Number of days of month `m` (1-based) in year `y`. -/
def daysInMonth (y m : Nat) : Nat :=
  (monthLengths y).getD (m - 1) 0

/-- Days in year `y` before the first of month `m`. -/
def daysBeforeMonth (y m : Nat) : Nat :=
  ((monthLengths y).take (m - 1)).foldl (fun a b => a + b) 0

/-- Days before January 1 of year `y` in the proleptic Gregorian calendar. -/
def daysBeforeYear (y : Nat) : Nat :=
  365 * (y - 1) + (y - 1) / 4 - (y - 1) / 100 + (y - 1) / 400

/-- `date.toordinal()`: day count with 0001-01-01 as ordinal 1. -/
def toOrdinal (d : PyDate) : Nat :=
  daysBeforeYear d.year + daysBeforeMonth d.year d.month + d.day

/-- `datetime.date(year, month, day)`: `none` models the `ValueError`
raised on an out-of-range component. -/
def mkPyDate (y m d : Nat) : Option PyDate :=
  if 1 ≤ y ∧ y ≤ 9999 ∧ 1 ≤ m ∧ m ≤ 12 ∧ 1 ≤ d ∧ d ≤ daysInMonth y m then
    some ⟨y, m, d⟩
  else none

/-- Ordinal of `date.max` = 9999-12-31. -/
def maxOrdinal : Nat := toOrdinal ⟨9999, 12, 31⟩

/-- `(a - b).days` for two dates: the signed ordinal difference. -/
def dateSub (a b : PyDate) : Int :=
  (toOrdinal a : Int) - (toOrdinal b : Int)

/-! ## MD5

`hashlib.md5(...).hexdigest()` embedded as a pure function: bytes are
natural numbers below 256, 32-bit words are natural numbers reduced
modulo `2 ^ 32`.  Constants and schedule are the ones of RFC 1321. -/

/-- Reduce to a 32-bit word. -/
def w32 (n : Nat) : Nat := n % 4294967296

/-- Rotate a 32-bit word left by `n` bits. -/
def rotl32 (x n : Nat) : Nat :=
  w32 (Nat.shiftLeft x n) ||| Nat.shiftRight x (32 - n)

/-- The 64 sine-derived round constants of MD5. -/
def md5K : List Nat :=
  [0xd76aa478, 0xe8c7b756, 0x242070db, 0xc1bdceee,
   0xf57c0faf, 0x4787c62a, 0xa8304613, 0xfd469501,
   0x698098d8, 0x8b44f7af, 0xffff5bb1, 0x895cd7be,
   0x6b901122, 0xfd987193, 0xa679438e, 0x49b40821,
   0xf61e2562, 0xc040b340, 0x265e5a51, 0xe9b6c7aa,
   0xd62f105d, 0x02441453, 0xd8a1e681, 0xe7d3fbc8,
   0x21e1cde6, 0xc33707d6, 0xf4d50d87, 0x455a14ed,
   0xa9e3e905, 0xfcefa3f8, 0x676f02d9, 0x8d2a4c8a,
   0xfffa3942, 0x8771f681, 0x6d9d6122, 0xfde5380c,
   0xa4beea44, 0x4bdecfa9, 0xf6bb4b60, 0xbebfbc70,
   0x289b7ec6, 0xeaa127fa, 0xd4ef3085, 0x04881d05,
   0xd9d4d039, 0xe6db99e5, 0x1fa27cf8, 0xc4ac5665,
   0xf4292244, 0x432aff97, 0xab9423a7, 0xfc93a039,
   0x655b59c3, 0x8f0ccc92, 0xffeff47d, 0x85845dd1,
   0x6fa87e4f, 0xfe2ce6e0, 0xa3014314, 0x4e0811a1,
   0xf7537e82, 0xbd3af235, 0x2ad7d2bb, 0xeb86d391]

/-- The 64 per-round left-rotation amounts of MD5. -/
def md5S : List Nat :=
  [7, 12, 17, 22, 7, 12, 17, 22, 7, 12, 17, 22, 7, 12, 17, 22,
   5, 9, 14, 20, 5, 9, 14, 20, 5, 9, 14, 20, 5, 9, 14, 20,
   4, 11, 16, 23, 4, 11, 16, 23, 4, 11, 16, 23, 4, 11, 16, 23,
   6, 10, 15, 21, 6, 10, 15, 21, 6, 10, 15, 21, 6, 10, 15, 21]

/-- The nonlinear function of round `i` applied to `b`, `c`, `d`. -/
def md5F (i b c d : Nat) : Nat :=
  if i < 16 then (b &&& c) ||| ((b ^^^ 0xffffffff) &&& d)
  else if i < 32 then (d &&& b) ||| ((d ^^^ 0xffffffff) &&& c)
  else if i < 48 then b ^^^ c ^^^ d
  else c ^^^ (b ||| (d ^^^ 0xffffffff))

/-- The message-word index used in round `i`. -/
def md5G (i : Nat) : Nat :=
  if i < 16 then i
  else if i < 32 then (5 * i + 1) % 16
  else if i < 48 then (3 * i + 5) % 16
  else (7 * i) % 16

/-- `n` as `k` little-endian bytes. -/
def leBytes : Nat → Nat → List Nat
  | 0, _ => []
  | k + 1, n => n % 256 :: leBytes k (n / 256)

/-- MD5 padding: a `0x80` byte, zeros to 56 mod 64, then the bit length
as 8 little-endian bytes. -/
def md5Pad (msg : List Nat) : List Nat :=
  let len := msg.length
  let r := (len + 1) % 64
  let zeros := if r ≤ 56 then 56 - r else 120 - r
  msg ++ [0x80] ++ List.replicate zeros 0 ++ leBytes 8 ((len * 8) % 18446744073709551616)

/-- One MD5 round on the state quadruple. -/
def md5Round (M : List Nat) (st : Nat × Nat × Nat × Nat) (i : Nat) : Nat × Nat × Nat × Nat :=
  let a := st.1
  let b := st.2.1
  let c := st.2.2.1
  let d := st.2.2.2
  let f := w32 (md5F i b c d + a + md5K.getD i 0 + M.getD (md5G i) 0)
  (d, w32 (b + rotl32 f (md5S.getD i 0)), b, c)

/-- Process one 64-byte chunk. -/
def md5Chunk (block : List Nat) (st : Nat × Nat × Nat × Nat) : Nat × Nat × Nat × Nat :=
  let M := (List.range 16).map (fun j =>
    let b := fun k => block.getD (4 * j + k) 0
    b 0 + 256 * b 1 + 65536 * b 2 + 16777216 * b 3)
  let r := (List.range 64).foldl (md5Round M) st
  (w32 (st.1 + r.1), w32 (st.2.1 + r.2.1), w32 (st.2.2.1 + r.2.2.1), w32 (st.2.2.2 + r.2.2.2))

/-- MD5 digest of a byte string, as 16 bytes. -/
def md5Bytes (msg : List Nat) : List Nat :=
  let padded := md5Pad msg
  let st := (List.range (padded.length / 64)).foldl
    (fun st i => md5Chunk ((padded.drop (64 * i)).take 64) st)
    (0x67452301, 0xefcdab89, 0x98badcfe, 0x10325476)
  leBytes 4 st.1 ++ leBytes 4 st.2.1 ++ leBytes 4 st.2.2.1 ++ leBytes 4 st.2.2.2

/-- One lowercase hexadecimal digit. -/
def hexDigit (n : Nat) : Char :=
  "0123456789abcdef".data.getD n 'x'

/-- `str.encode()`: UTF-8 bytes of one character. -/
def utf8Char (c : Char) : List Nat :=
  let n := c.toNat
  if n < 128 then [n]
  else if n < 2048 then [192 + n / 64, 128 + n % 64]
  else if n < 65536 then [224 + n / 4096, 128 + (n / 64) % 64, 128 + n % 64]
  else [240 + n / 262144, 128 + (n / 4096) % 64, 128 + (n / 64) % 64, 128 + n % 64]

/-- `str.encode()`: UTF-8 bytes of a string. -/
def utf8Str (s : Str) : List Nat :=
  s.flatMap utf8Char

/-- `hashlib.md5(s.encode()).hexdigest()`. -/
def md5hex (s : Str) : Str :=
  (md5Bytes (utf8Str s)).flatMap (fun b => [hexDigit (b / 16), hexDigit (b % 16)])

/-! ## The configuration and HTML models -/

/-- The values `Article` reads from `scraper.settings` (a collaborator
outside `article.py`): the type-name table, the month-name table, the
base URL and the mandatory-field list. -/
structure Settings where
  TYPES : List (Str × Str)
  MONTHS : List (Str × Nat)
  MAE_BASE_URL : Str
  MANDATORY_FIELDS : List Str

/-- An `<a>` element: its text and its optional `href` attribute
(`attrs['href']` raises `KeyError` when absent). -/
structure Anchor where
  text : Str
  href : Option Str
deriving DecidableEq

/-- A `<td>` element as accessed by the code: its text and its first
`<a>` descendant (`find('a')`, `None` when absent). -/
structure Cell where
  text : Str
  anchor : Option Anchor
deriving DecidableEq

/-- One `<tr>` of the article table: its `<a>` descendants
(`find_all('a')`), its first `<td>` (`find('td')`, `None` when absent)
and the texts of its `<p>` descendants (`select('p')` / `find_all('p')`). -/
structure Row where
  anchors : List Anchor
  td : Option Cell
  paragraphs : List Str
deriving DecidableEq

/-- `row[-1].find_all('p')[0].text`: the first paragraph of the last
row, `none` when the row list or the paragraph list is empty
(`IndexError` in Python). -/
def firstPara (tr : List Row) : Option Str :=
  (tr.getLast?).bind (fun r => r.paragraphs.head?)

/-- `row[-1].find_all('p')[-1].text`: the last paragraph of the last row. -/
def lastPara (tr : List Row) : Option Str :=
  (tr.getLast?).bind (fun r => r.paragraphs.getLast?)

/-- The record the constructor fills in (class attributes of `Article`,
all defaulting to `None`). -/
structure ArticleR where
  identifier : Option Str
  article_type : Option Str
  title : Option Str
  documents : Option (List (Option Str × Str))
  published_at : Option PyDate
  feedback_days : Option Int
  contact : Option (List (Str × Str))
deriving DecidableEq

/-! ## The extractors of `Article`

Each `_extract_...` / `_build_...` method becomes a function returning
`Except String ...`; the error string is the Python exception class that
the corresponding statement would raise. -/

/-- `Article.ANEXA`. -/
def ANEXA : Str := " - ANEXA".data

/-- `_sanitize`: removes newlines and zero-width spaces; returns `None`
(here `none`) when the argument is falsy (the empty string). -/
def sanitize (s : Str) : Option Str :=
  if s.isEmpty then none
  else some (s.filter (fun c => c != '\n' && c != '\u200b'))

/-- `_do_magic`: on a falsy argument returns `None`; otherwise replaces,
on the UTF-8 encoding, every occurrence of the bytes `C5 A2 C4 82` with
`54 41` (`"TA"`).  `C5 A2` is the encoding of `'Ţ'` and `C4 82` of
`'Ă'`, and neither `C5` nor `C4` can occur as a continuation byte,
so on valid text the byte substitution is exactly this character-level
replacement. -/
def magicRepl : Str → Str
  | 'Ţ' :: 'Ă' :: t => 'T' :: 'A' :: magicRepl t
  | c :: t => c :: magicRepl t
  | [] => []

/-- `_do_magic` including the falsy guard. -/
def doMagic (s : Str) : Option Str :=
  if s.isEmpty then none else some (magicRepl s)

/-- Python truthiness of an optional string (`None` and `''` are falsy). -/
def strTruthy : Option Str → Bool
  | none => false
  | some s => !s.isEmpty

/-- `settings.TYPES.get(k)` where `k` may be `None` (a miss, since all
keys are strings). -/
def typesGet (S : Settings) (k : Option Str) : Option Str :=
  k.bind (fun s => dictGet s S.TYPES)

/-- The body of `_extract_article_type` from the stripped anchor text
onward: sanitize, look up, on a falsy result apply `_do_magic` and retry,
on a second falsy result fall back to the `'OTHER'` entry. -/
def classifyCore (S : Settings) (label : Str) : Option Str :=
  let k1 := sanitize label
  let v1 := typesGet S k1
  if strTruthy v1 then v1
  else
    let k2 := k1.bind doMagic
    let v2 := typesGet S k2
    if strTruthy v2 then v2
    else dictGet "OTHER".data S.TYPES

/-- `_extract_article_type`: reads `row[0].find_all('a')[0].text.strip()`
(raising `IndexError` when there is no row or no anchor) and classifies it. -/
def extract_article_type (S : Settings) (tr : List Row) : Except String (Option Str) :=
  match tr with
  | [] => .error "IndexError"
  | r0 :: _ =>
    match r0.anchors with
    | [] => .error "IndexError"
    | a :: _ => .ok (classifyCore S (pyStrip a.text))

/-- Python `str.lower()` (ASCII range, which covers the configured type
codes). -/
def pyLowerStr (s : Str) : Str := s.map Char.toLower

/-- Python `str.capitalize()`: first character upper-cased, the rest
lower-cased. -/
def pyCapitalizeStr : Str → Str
  | [] => []
  | c :: t => c.toUpper :: t.map Char.toLower

/-- Collapse runs of spaces to a single space
(`re.sub(' +', ' ', title)`). -/
def collapseSpaces : Str → Str
  | [] => []
  | [c] => [c]
  | a :: b :: t =>
    if a = ' ' ∧ b = ' ' then collapseSpaces (b :: t)
    else a :: collapseSpaces (b :: t)

/-- `DESCRIPTION_FMT.format(t, d).replace('\n', ' ').replace('\t', ' ')`
followed by `re.sub(' +', ' ', ...).strip()`. -/
def formatTitle (t d : Str) : Str :=
  pyStrip (collapseSpaces ((t ++ ' ' :: d).map
    (fun c => if c = '\n' ∨ c = '\t' then ' ' else c)))

/-- `_extract_title`: re-runs `_extract_article_type`, calls
`.lower().capitalize()` on its result (an `AttributeError` when the
result is `None`), reads the second anchor of row 0 (an `IndexError`
when absent) and formats the title. -/
def extract_title (S : Settings) (tr : List Row) : Except String Str :=
  match extract_article_type S tr with
  | .error e => .error e
  | .ok none => .error "AttributeError"
  | .ok (some t) =>
    match tr with
    | [] => .error "IndexError"
    | r0 :: _ =>
      match r0.anchors.get? 1 with
      | none => .error "IndexError"
      | some a1 =>
        .ok (formatTitle (pyCapitalizeStr (pyLowerStr t)) (rstripNewline a1.text))

/-- The key order of `CONTACT_REGX` (Python dict insertion order). -/
def contactFields : List Str :=
  ["email".data, "tel".data, "fax".data, "addr".data]

/-- The pattern of one contact field. -/
def contactRE (f : Str) : RE :=
  if f = "email".data then emailRE
  else if f = "tel".data then telRE
  else if f = "fax".data then faxRE
  else addrRE

/-- One iteration of the `_build_contact` loop: the entry added for
field `f` (nothing unless the pattern matched with a non-empty stripped
first group). -/
def contactEntry (f : Str) (p : Str) : List (Str × Str) :=
  match searchG1 (contactRE f) p with
  | some g => if (pyStrip g).isEmpty then [] else [(f, pyStrip g)]
  | none => []

/-- The contact dict built from one paragraph by `_build_contact`
(the loop over `CONTACT_REGX.keys()`). -/
def contactDict (p : Str) : List (Str × Str) :=
  contactFields.foldl (fun acc f => acc ++ contactEntry f p) []

/-- `_build_contact`: reads `row[-1].select('p')[0].text` (an
`IndexError` when there is no row or no paragraph) and fills the dict. -/
def build_contact (tr : List Row) : Except String (List (Str × Str)) :=
  match firstPara tr with
  | none => .error "IndexError"
  | some p => .ok (contactDict p)

/-- `row[i].find('td').find('a').attrs['href']`: `IndexError` on a
missing row, `AttributeError` on a missing `<td>` or `<a>`, `KeyError`
on a missing `href`. -/
def getHref : Option Row → Except String Str
  | none => .error "IndexError"
  | some r =>
    match r.td with
    | none => .error "AttributeError"
    | some c =>
      match c.anchor with
      | none => .error "AttributeError"
      | some a =>
        match a.href with
        | none => .error "KeyError"
        | some h => .ok h

/-- The `t2` expression of `_build_documents`:
`self._sanitize(row[1].find('td').text) + self.ANEXA if len(row) >= 2
else None`.  `find('td')` returning `None` makes `.text` raise
`AttributeError`; `_sanitize` returning `None` makes `+` raise
`TypeError`. -/
def t2Of : List Row → Except String (Option Str)
  | _ :: r1 :: _ =>
    match r1.td with
    | none => .error "AttributeError"
    | some c =>
      match sanitize c.text with
      | none => .error "TypeError"
      | some s => .ok (some (s ++ ANEXA))
  | _ => .ok none

/-- `_build_documents`: computes `t1` and `t2`, then reads `t1_url` from
row 0 and — unconditionally — `t2_url` from row 1, builds the first
document and appends the second when `t2` is truthy.  Documents are
`(type, url)` pairs. -/
def build_documents (S : Settings) (article_type : Option Str) (tr : List Row) :
    Except String (List (Option Str × Str)) :=
  let t1 : Option Str :=
    match article_type with
    | some t => if t.isEmpty then none else some (t ++ ANEXA)
    | none => none
  match t2Of tr with
  | .error e => .error e
  | .ok t2 =>
    match getHref tr.head? with
    | .error e => .error e
    | .ok t1_url =>
      match getHref (tr.get? 1) with
      | .error e => .error e
      | .ok t2_url =>
        let docs := [(t1, S.MAE_BASE_URL ++ t1_url)]
        .ok (match t2 with
          | some s =>
            if s.isEmpty then docs
            else docs ++ [(some s, S.MAE_BASE_URL ++ t2_url)]
          | none => docs)

/-- Python truthiness of the optional month number (`None` and `0` are
falsy). -/
def monthTruthy : Option Nat → Bool
  | none => false
  | some m => m != 0

/-- `_build_date_from_match` applied to the three captures: resolves the
month via `settings.MONTHS.get(match.group(2).strip())`; a falsy month
yields `None`, otherwise `date(int(g3), int(month), int(g1))` (whose
`ValueError` on an invalid date propagates). -/
def build_date_from_match (S : Settings) (g1 g2 g3 : Str) :
    Except String (Option PyDate) :=
  let month := dictGet (pyStrip g2) S.MONTHS
  if monthTruthy month then
    match mkPyDate (strToNat g3) (month.getD 0) (strToNat g1) with
    | none => .error "ValueError"
    | some d => .ok (some d)
  else .ok none

/-- The body of `_extract_published_at` on the paragraph text:
`published_at` is set only when `DATE_REGX` matches, to whatever
`_build_date_from_match` returns. -/
def extract_published_at_text (S : Settings) (p : Str) :
    Except String (Option PyDate) :=
  match dateSearch p with
  | none => .ok none
  | some g => build_date_from_match S g.1 g.2.1 g.2.2

/-- `_extract_published_at`: reads `row[-1].find_all('p')[-1].text`. -/
def extract_published_at (S : Settings) (tr : List Row) :
    Except String (Option PyDate) :=
  match lastPara tr with
  | none => .error "IndexError"
  | some p => extract_published_at_text S p

/-- The body of `_extract_feedback_days` on the first paragraph, given
the current `published_at`.  Explicit-date branch: a `DATE_REGX` match
resolves `feedback_date` via `_build_date_from_match`; otherwise the
`TIMEDELTA_REGX` branch computes `published_at + timedelta(days=N)`
(a `TypeError` when `published_at` is `None`, an `OverflowError` past
`date.max`; only the resulting ordinal is relevant).  When a
`feedback_date` was obtained, `feedback_days` is
`(feedback_date - published_at).days` (a `TypeError` when
`published_at` is `None`). -/
def extract_feedback_days_text (S : Settings) (published : Option PyDate)
    (p : Str) : Except String (Option Int) :=
  match dateSearch p with
  | some g =>
    match build_date_from_match S g.1 g.2.1 g.2.2 with
    | .error e => .error e
    | .ok none => .ok none
    | .ok (some d) =>
      match published with
      | none => .error "TypeError"
      | some pub => .ok (some (dateSub d pub))
  | none =>
    match deltaSearch p with
    | none => .ok none
    | some g2 =>
      match published with
      | none => .error "TypeError"
      | some pub =>
        let o := toOrdinal pub + strToNat g2
        if o ≤ maxOrdinal then .ok (some ((o : Int) - (toOrdinal pub : Int)))
        else .error "OverflowError"

/-- `_extract_feedback_days`: reads `row[-1].find_all('p')[0].text`. -/
def extract_feedback_days (S : Settings) (published : Option PyDate)
    (tr : List Row) : Except String (Option Int) :=
  match firstPara tr with
  | none => .error "IndexError"
  | some p => extract_feedback_days_text S published p

/-- `_generate_id`: when both `article_type` and `title` are truthy,
`'%s-%s' % (article_type, md5(title.encode()).hexdigest())`; otherwise
the identifier stays `None` (a diagnostic is printed, no error). -/
def generate_id (article_type title : Option Str) : Option Str :=
  if strTruthy article_type && strTruthy title then
    some ((article_type.getD []) ++ '-' :: md5hex (title.getD []))
  else none

/-- `Article.__init__`: the seven extraction steps in order, each
exception propagating out of the constructor. -/
def buildArticle (S : Settings) (tr : List Row) : Except String ArticleR :=
  match extract_article_type S tr with
  | .error e => .error e
  | .ok aType =>
    match extract_title S tr with
    | .error e => .error e
    | .ok title =>
      match build_contact tr with
      | .error e => .error e
      | .ok contact =>
        match build_documents S aType tr with
        | .error e => .error e
        | .ok docs =>
          match extract_published_at S tr with
          | .error e => .error e
          | .ok pub =>
            match extract_feedback_days S pub tr with
            | .error e => .error e
            | .ok fb =>
              .ok { identifier := generate_id aType (some title)
                    article_type := aType
                    title := some title
                    documents := some docs
                    published_at := pub
                    feedback_days := fb
                    contact := some contact }

/-- Python truthiness of each `Article` field, by field name
(`getattr(self, field)` followed by `not ...`); `none` models the
`AttributeError` on an unknown attribute name. -/
def fieldTruthy (a : ArticleR) (f : Str) : Option Bool :=
  if f = "identifier".data then some (strTruthy a.identifier)
  else if f = "article_type".data then some (strTruthy a.article_type)
  else if f = "title".data then some (strTruthy a.title)
  else if f = "documents".data then
    some (match a.documents with | none => false | some l => !l.isEmpty)
  else if f = "published_at".data then some a.published_at.isSome
  else if f = "feedback_days".data then
    some (match a.feedback_days with | none => false | some n => n != 0)
  else if f = "contact".data then
    some (match a.contact with | none => false | some l => !l.isEmpty)
  else none

/-- `is_valid`: loops over `settings.MANDATORY_FIELDS`, returns `False`
on the first falsy field, `True` when all are truthy.  It only reads the
record. -/
def is_valid (a : ArticleR) : List Str → Option Bool
  | [] => some true
  | f :: t =>
    match fieldTruthy a f with
    | none => none
    | some false => some false
    | some true => is_valid a t

/-! ## Specification-side definitions

Used only to compare the code against the specification's wording of the
type-classification algorithm. -/

/-- Sanitizing as the specification words it: strip newlines and
zero-width spaces (a total string-to-string function). -/
def sanitizeSpec (s : Str) : Str :=
  s.filter (fun c => c != '\n' && c != '\u200b')

/-- Type classification as the specification words it: sanitize, exact
lookup, on a miss apply the byte substitution and retry, on a second
miss return the configured `'OTHER'` entry. -/
def classifySpec (S : Settings) (label : Str) : Option Str :=
  match dictGet (sanitizeSpec label) S.TYPES with
  | some t => some t
  | none =>
    match dictGet (magicRepl (sanitizeSpec label)) S.TYPES with
    | some t => some t
    | none => dictGet "OTHER".data S.TYPES

/-! ## Helper lemmas -/

deriving instance DecidableEq for Except

theorem dictGet_mem {β : Type} {k : Str} {v : β} :
    ∀ {l : List (Str × β)}, dictGet k l = some v → (k, v) ∈ l := by
  intro l
  induction l with
  | nil => intro h; simp [dictGet] at h
  | cons q t ih =>
    intro h
    by_cases hq : q.1 = k
    · simp [dictGet, hq] at h
      have hq2 : q = (k, v) := by
        obtain ⟨q1, q2⟩ := q
        simp only at hq h
        simp [hq, h]
      rw [hq2]
      exact List.mem_cons_self _ _
    · simp [dictGet, hq] at h
      exact List.mem_cons_of_mem q (ih h)

theorem dictGet_nil_key {S : Settings} (hk : ∀ q ∈ S.TYPES, q.1 ≠ []) :
    dictGet ([] : Str) S.TYPES = none := by
  cases h : dictGet ([] : Str) S.TYPES with
  | none => rfl
  | some v => exact absurd rfl (hk _ (dictGet_mem h))

theorem dictGet_append {β : Type} (k : Str) (l1 l2 : List (Str × β)) :
    dictGet k (l1 ++ l2) =
      match dictGet k l1 with
      | some v => some v
      | none => dictGet k l2 := by
  induction l1 with
  | nil => simp [dictGet]
  | cons q t ih => by_cases hq : q.1 = k <;> simp [dictGet, hq, ih]

/-! ## Concrete fixtures for witnesses and counterexamples -/

/-- A representative configuration (type table, month table, base URL,
mandatory fields). -/
def Sbase : Settings :=
  { TYPES := [("HG".data, "HG".data), ("OTHER".data, "ALT".data)]
    MONTHS := [("ianuarie".data, 1)]
    MAE_BASE_URL := "http://mae.gov.ro".data
    MANDATORY_FIELDS := ["article_type".data, "title".data] }

/-- A configuration whose type table is empty (in particular the
`'OTHER'` fallback is unconfigured). -/
def Snone : Settings :=
  { TYPES := [], MONTHS := [], MAE_BASE_URL := [], MANDATORY_FIELDS := [] }

/-- A well-formed first document row: two anchors, a `<td>` with an
anchor carrying an `href`. -/
def docRow1 : Row :=
  { anchors := [⟨"HG".data, none⟩, ⟨"Proiect de lege".data, none⟩]
    td := some ⟨"Primul doc".data, some ⟨"a".data, some "/doc1".data⟩⟩
    paragraphs := ["timp de 10 zile".data] }

/-- A well-formed second document row whose single paragraph matches the
relative feedback pattern but not the date pattern. -/
def docRow2 : Row :=
  { anchors := []
    td := some ⟨"Doc doi".data, some ⟨"b".data, some "/doc2".data⟩⟩
    paragraphs := ["timp de 10 zile".data] }

/-! ## The claims -/

/-- C1: on a well-formed two-row row-group `_build_documents` does yield
exactly 2 documents whose urls are the base URL concatenated with the
hrefs — but on a one-row row-group it raises `IndexError` instead of
yielding 1 entry: `t2_url = row[1].find('td').find('a').attrs['href']`
indexes `row[1]` unconditionally, although `t2` itself is guarded by
`len(row) >= 2`.  The documents list is therefore never set for one-row
groups, against both the claim and the guard's evident intent. -/
theorem C1_documents_one_row :
    build_documents Sbase (some "HG".data) [docRow1, docRow2] =
      .ok [(some "HG - ANEXA".data, "http://mae.gov.ro/doc1".data),
           (some "Doc doi - ANEXA".data, "http://mae.gov.ro/doc2".data)]
    ∧ build_documents Sbase (some "HG".data) [docRow1] = .error "IndexError" := by
  decide

/-- C2 counterexample: with an empty type table (the `'OTHER'` fallback
unconfigured) the type lookup yields `None`, and `_extract_title` then
raises `AttributeError` (`None.lower()`) instead of completing with a
degraded title. -/
theorem C2_title_none_cex :
    extract_article_type Snone [docRow1] = .ok none
    ∧ extract_title Snone [docRow1] = .error "AttributeError" := by
  decide

/-- C2 amended: whenever the type lookup yields no type code,
`_extract_title` raises `AttributeError` — it never completes with a
degraded title. -/
theorem C2_title_raises (S : Settings) (tr : List Row)
    (h : extract_article_type S tr = .ok none) :
    extract_title S tr = .error "AttributeError" := by
  simp [extract_title, h]

/-- C2 witness: the amended theorem applied to the concrete empty-table
configuration. -/
theorem C2_title_raises_witness :
    extract_title Snone [docRow1] = .error "AttributeError" :=
  C2_title_raises Snone [docRow1] (by decide)

/-- C5: for every raw label, the code's classification (sanitize, exact
lookup, on a miss the `C5 A2 C4 82 -> "TA"` byte substitution and a
retry, on a second miss the `'OTHER'` entry, never an error) coincides
with the algorithm as the claim words it, for every configuration whose
type table has no empty key and no empty value (the code tests
truthiness, so an empty-string key or value would be treated as a miss).
Totality — classification never raises — is the type of `classifyCore`
itself. -/
theorem C5_type_classification (S : Settings)
    (hk : ∀ q ∈ S.TYPES, q.1 ≠ ([] : Str))
    (hv : ∀ q ∈ S.TYPES, q.2 ≠ ([] : Str))
    (label : Str) :
    classifyCore S label = classifySpec S label := by
  have hnil : dictGet ([] : Str) S.TYPES = none := dictGet_nil_key hk
  have hsome : ∀ k v : Str, dictGet k S.TYPES = some v → strTruthy (some v) = true := by
    intro k v h
    have hvne := hv _ (dictGet_mem h)
    cases v with
    | nil => exact absurd rfl hvne
    | cons a b => rfl
  by_cases h0 : label = []
  · subst h0
    simp [classifyCore, classifySpec, sanitize, sanitizeSpec, typesGet,
      strTruthy, magicRepl, hnil]
  · have hne : label.isEmpty = false := by
      cases label with
      | nil => exact absurd rfl h0
      | cons c t => rfl
    cases hd1 : dictGet (label.filter (fun c => c != '\n' && c != '\u200b')) S.TYPES with
    | some t =>
      have ht := hsome _ _ hd1
      simp [classifyCore, classifySpec, sanitize, sanitizeSpec, typesGet, hne, hd1, ht]
    | none =>
      by_cases hfe : label.filter (fun c => c != '\n' && c != '\u200b') = []
      · simp [classifyCore, classifySpec, sanitize, sanitizeSpec, typesGet, doMagic,
          strTruthy, hne, hd1, hfe, magicRepl, hnil]
      · cases hd2 : dictGet (magicRepl (label.filter (fun c => c != '\n' && c != '\u200b'))) S.TYPES with
        | some t =>
          have ht := hsome _ _ hd2
          have htne : t ≠ [] := by simpa [strTruthy] using ht
          simp [classifyCore, classifySpec, sanitize, sanitizeSpec, typesGet, doMagic,
            strTruthy, hne, hd1, hfe, hd2, htne]
        | none =>
          simp [classifyCore, classifySpec, sanitize, sanitizeSpec, typesGet, doMagic,
            strTruthy, hne, hd1, hfe, hd2]

/-- C5 witness: the refinement applied to the representative
configuration and an unconfigured label (which falls through to the
`'OTHER'` entry). -/
theorem C5_type_classification_witness :
    ((∀ q ∈ Sbase.TYPES, q.1 ≠ ([] : Str)) ∧ (∀ q ∈ Sbase.TYPES, q.2 ≠ ([] : Str)))
    ∧ classifyCore Sbase "Proiect necunoscut".data = classifySpec Sbase "Proiect necunoscut".data :=
  ⟨⟨by decide, by decide⟩, C5_type_classification Sbase (by decide) (by decide) _⟩

/-- C6: when `DATE_REGX` matches a paragraph but the month token has no
entry in the configured month table, `published_at` stays unset and no
exception is raised; when the month resolves (to a nonzero number, since
the code tests truthiness) `published_at` is the calendar date built
from the captured day, the resolved month and the captured year. -/
theorem C6_published_at (S : Settings) (p : Str) :
    (∀ g1 g2 g3 : Str, dateSearch p = some (g1, g2, g3) →
      dictGet (pyStrip g2) S.MONTHS = none →
      extract_published_at_text S p = .ok none)
    ∧ (∀ (g1 g2 g3 : Str) (m : Nat) (d : PyDate),
      dateSearch p = some (g1, g2, g3) →
      dictGet (pyStrip g2) S.MONTHS = some m → m ≠ 0 →
      mkPyDate (strToNat g3) m (strToNat g1) = some d →
      extract_published_at_text S p = .ok (some d)) := by
  constructor
  · intro g1 g2 g3 hs hm
    simp [extract_published_at_text, hs, build_date_from_match, hm, monthTruthy]
  · intro g1 g2 g3 m d hs hm hm0 hd
    simp [extract_published_at_text, hs, build_date_from_match, hm, monthTruthy, hm0, hd]

/-- C6 witness: with month table `{"ianuarie": 1}`, `"15 mumble 2020"`
leaves the date unset without an error and `"15 ianuarie 2020"` yields
2020-01-15. -/
theorem C6_published_at_witness :
    extract_published_at_text Sbase "15 mumble 2020".data = .ok none
    ∧ extract_published_at_text Sbase "15 ianuarie 2020".data = .ok (some ⟨2020, 1, 15⟩) :=
  ⟨(C6_published_at Sbase "15 mumble 2020".data).1
      "15".data "mumble".data "2020".data (by decide) (by decide),
   (C6_published_at Sbase "15 ianuarie 2020".data).2
      "15".data "ianuarie".data "2020".data 1 ⟨2020, 1, 15⟩
      (by decide) (by decide) (by decide) (by decide)⟩

/-- C4: with `published_at` resolved, `_extract_feedback_days` tries the
two branches in order on the paragraph: a `DATE_REGX` match whose month
resolves (to a nonzero entry) and whose date is constructible gives
`feedback_days = (matched_date - published_at).days`; with no
`DATE_REGX` match, a `TIMEDELTA_REGX` match gives `feedback_days = N`
(the captured day count, provided `published_at + N days` stays within
the calendar, else Python raises `OverflowError`); when neither pattern
matches, `feedback_days` stays unset. -/
theorem C4_feedback_branches (S : Settings) (pub : PyDate) (p : Str) :
    (∀ (g1 g2 g3 : Str) (m : Nat) (d : PyDate),
      dateSearch p = some (g1, g2, g3) →
      dictGet (pyStrip g2) S.MONTHS = some m → m ≠ 0 →
      mkPyDate (strToNat g3) m (strToNat g1) = some d →
      extract_feedback_days_text S (some pub) p = .ok (some (dateSub d pub)))
    ∧ (∀ g2 : Str, dateSearch p = none → deltaSearch p = some g2 →
      toOrdinal pub + strToNat g2 ≤ maxOrdinal →
      extract_feedback_days_text S (some pub) p = .ok (some (strToNat g2 : Int)))
    ∧ (dateSearch p = none → deltaSearch p = none →
      extract_feedback_days_text S (some pub) p = .ok none) := by
  refine ⟨?_, ?_, ?_⟩
  · intro g1 g2 g3 m d hs hm hm0 hd
    simp [extract_feedback_days_text, hs, build_date_from_match, hm, monthTruthy, hm0, hd]
  · intro g2 hs hdel hbound
    simp only [extract_feedback_days_text, hs, hdel, hbound, if_true]
    simp
  · intro hs hdel
    simp [extract_feedback_days_text, hs, hdel]

/-- C4 witness: the two worked examples of the specification, both with
`published_at` = 2020-01-01: `"20 ianuarie 2020"` gives 19 and
`"timp de 10 zile"` gives 10. -/
theorem C4_feedback_branches_witness :
    extract_feedback_days_text Sbase (some ⟨2020, 1, 1⟩) "20 ianuarie 2020".data
      = .ok (some 19)
    ∧ extract_feedback_days_text Sbase (some ⟨2020, 1, 1⟩) "timp de 10 zile".data
      = .ok (some 10) :=
  ⟨((C4_feedback_branches Sbase ⟨2020, 1, 1⟩ "20 ianuarie 2020".data).1
      "20".data "ianuarie".data "2020".data 1 ⟨2020, 1, 20⟩
      (by decide) (by decide) (by decide) (by decide)).trans (by decide),
   ((C4_feedback_branches Sbase ⟨2020, 1, 1⟩ "timp de 10 zile".data).2.1
      "10".data (by decide) (by decide) (by decide)).trans (by decide)⟩

/-- C3 counterexample: `feedback_days` can be set to a negative value —
with `published_at` = 2020-05-01 and a first paragraph carrying the
explicit deadline `"20 ianuarie 2020"`, the code stores
`(2020-01-20 - 2020-05-01).days = -102`. -/
theorem C3_negative_cex :
    extract_feedback_days_text Sbase (some ⟨2020, 5, 1⟩) "20 ianuarie 2020".data
      = .ok (some (-102))
    ∧ (-102 : Int) < 0 := by
  decide

/-- C3 amended: whenever `feedback_days` is set, `published_at` is also
set and `feedback_days` equals the signed day difference between the
resolved deadline's ordinal and `published_at`; it is non-negative
whenever the deadline came from the relative `"timp de N zile"` branch
(no `DATE_REGX` match), but the explicit-date branch may store a
negative value. -/
theorem C3_feedback_days_amended (S : Settings) (pubOpt : Option PyDate)
    (p : Str) (n : Int)
    (h : extract_feedback_days_text S pubOpt p = .ok (some n)) :
    (∃ (pub : PyDate) (fo : Nat), pubOpt = some pub
      ∧ n = (fo : Int) - (toOrdinal pub : Int))
    ∧ (dateSearch p = none → 0 ≤ n) := by
  unfold extract_feedback_days_text at h
  cases hs : dateSearch p with
  | some g =>
    simp only [hs] at h
    cases hb : build_date_from_match S g.1 g.2.1 g.2.2 with
    | error e => simp [hb] at h
    | ok ob =>
      simp only [hb] at h
      cases ob with
      | none => simp at h
      | some d =>
        cases pubOpt with
        | none => simp at h
        | some pub =>
          simp [dateSub] at h
          exact ⟨⟨pub, toOrdinal d, rfl, h.symm⟩,
            fun hnone => by simp at hnone⟩
  | none =>
    simp only [hs] at h
    cases hdel : deltaSearch p with
    | none => simp [hdel] at h
    | some g2 =>
      simp only [hdel] at h
      cases pubOpt with
      | none => simp at h
      | some pub =>
        by_cases hb : toOrdinal pub + strToNat g2 ≤ maxOrdinal
        · simp only [hb, if_true] at h
          simp at h
          exact ⟨⟨pub, toOrdinal pub + strToNat g2, rfl, by push_cast; omega⟩,
            fun _ => by omega⟩
        · simp [hb] at h

/-- C3 witness: the amended invariant applied to a concrete run in which
`feedback_days` is set (to 19, from a deadline 19 days after the
publication date). -/
theorem C3_feedback_days_amended_witness :
    (∃ (pub : PyDate) (fo : Nat), (some ⟨2020, 1, 1⟩ : Option PyDate) = some pub
      ∧ (19 : Int) = (fo : Int) - (toOrdinal pub : Int))
    ∧ (dateSearch "20 ianuarie 2020".data = none → (0 : Int) ≤ 19) :=
  C3_feedback_days_amended Sbase (some ⟨2020, 1, 1⟩) "20 ianuarie 2020".data 19
    (by decide)

/-- C10: with every earlier extraction step succeeding, `published_at`
left unset and a first paragraph that misses the date pattern but
matches the relative `"timp de N zile"` pattern, the constructor raises
(`None + timedelta` is a `TypeError`) instead of leaving `feedback_days`
unset. -/
theorem C10_relative_without_published (S : Settings) (tr : List Row)
    (aType : Option Str) (title : Str) (contact : List (Str × Str))
    (docs : List (Option Str × Str)) (p g2 : Str)
    (h0 : extract_article_type S tr = .ok aType)
    (h1 : extract_title S tr = .ok title)
    (h2 : build_contact tr = .ok contact)
    (h3 : build_documents S aType tr = .ok docs)
    (h4 : extract_published_at S tr = .ok none)
    (h5 : firstPara tr = some p)
    (h6 : dateSearch p = none)
    (h7 : deltaSearch p = some g2) :
    buildArticle S tr = .error "TypeError" := by
  simp [buildArticle, h0, h1, h2, h3, h4, extract_feedback_days, h5,
    extract_feedback_days_text, h6, h7]

/-- C10 witness: a fully concrete two-row table whose trailing paragraph
is `"timp de 10 zile"` and carries no date, so construction raises. -/
theorem C10_relative_without_published_witness :
    buildArticle Sbase [docRow1, docRow2] = .error "TypeError" :=
  C10_relative_without_published Sbase [docRow1, docRow2]
    (some "HG".data) "Hg Proiect de lege".data []
    [(some "HG - ANEXA".data, "http://mae.gov.ro/doc1".data),
     (some "Doc doi - ANEXA".data, "http://mae.gov.ro/doc2".data)]
    "timp de 10 zile".data "10".data
    (by decide) (by decide) (by decide) (by decide) (by decide) (by decide)
    (by decide) (by decide)

/-- `_generate_id` on truthy inputs: the `"{type}-{md5 hex digest}"`
format string. -/
theorem generate_id_some (t s : Str) (ht : t ≠ []) (hs : s ≠ []) :
    generate_id (some t) (some s) = some (t ++ '-' :: md5hex s) := by
  have h1 : strTruthy (some t) = true := by
    cases t with
    | nil => exact absurd rfl ht
    | cons a b => rfl
  have h2 : strTruthy (some s) = true := by
    cases s with
    | nil => exact absurd rfl hs
    | cons a b => rfl
  simp [generate_id, h1, h2]

/-- C7: when both `article_type` and `title` are truthy the identifier
is `"{article_type}-{hex md5 of title}"`; when either is missing it
stays unset without an error; the identifier is a deterministic function
of the pair; and distinct titles with the same type give distinct
identifiers unless their digests collide. -/
theorem C7_identifier :
    (∀ t s : Str, t ≠ [] → s ≠ [] →
      generate_id (some t) (some s) = some (t ++ '-' :: md5hex s))
    ∧ (∀ a b : Option Str, a = none ∨ b = none → generate_id a b = none)
    ∧ (∀ a b a2 b2 : Option Str, a = a2 → b = b2 →
      generate_id a b = generate_id a2 b2)
    ∧ (∀ t s1 s2 : Str, t ≠ [] → s1 ≠ [] → s2 ≠ [] →
      md5hex s1 ≠ md5hex s2 →
      generate_id (some t) (some s1) ≠ generate_id (some t) (some s2)) := by
  refine ⟨generate_id_some, ?_, ?_, ?_⟩
  · rintro a b (rfl | rfl) <;> simp [generate_id, strTruthy]
  · intro a b a2 b2 h1 h2
    rw [h1, h2]
  · intro t s1 s2 ht h1 h2 hmd heq
    rw [generate_id_some t s1 ht h1, generate_id_some t s2 ht h2] at heq
    simp at heq
    exact hmd heq

/-- C7 witness: the formula applied at type `"HG"` and title `"abc"`,
with the digest evaluated (`md5("abc")` is the RFC 1321 test vector). -/
theorem C7_identifier_witness :
    ("HG".data ≠ [] ∧ "abc".data ≠ [])
    ∧ generate_id (some "HG".data) (some "abc".data)
      = some "HG-900150983cd24fb0d6963f7d28e17f72".data :=
  ⟨⟨by decide, by decide⟩,
   (C7_identifier.1 "HG".data "abc".data (by decide) (by decide)).trans (by decide)⟩

/-- C8: on every record and every mandatory-field list naming actual
`Article` attributes, `is_valid` returns `True` exactly when every named
field is truthy — it is a pure function of the record's post-construction
state (it takes the record as its only data and performs no extraction
or mutation by construction). -/
theorem C8_is_valid (a : ArticleR) (fields : List Str)
    (h : ∀ f ∈ fields, (fieldTruthy a f).isSome) :
    is_valid a fields = some (fields.all (fun f => fieldTruthy a f == some true)) := by
  induction fields with
  | nil => simp [is_valid]
  | cons f t ih =>
    have hf : (fieldTruthy a f).isSome = true := h f (by simp)
    cases hb : fieldTruthy a f with
    | none => rw [hb] at hf; simp at hf
    | some b =>
      cases b with
      | false => simp [is_valid, hb]
      | true => simp [is_valid, hb, ih (fun g hg => h g (by simp [hg]))]

/-- A record with truthy `article_type` and `title` and nothing else. -/
def articleBoth : ArticleR :=
  { identifier := none, article_type := some "HG".data,
    title := some "Hg Proiect de lege".data, documents := none,
    published_at := none, feedback_days := none, contact := none }

/-- The same record with `title` missing. -/
def articleNoTitle : ArticleR :=
  { identifier := none, article_type := some "HG".data, title := none,
    documents := none, published_at := none, feedback_days := none,
    contact := none }

/-- C8 witness: with `MANDATORY_FIELDS = ["article_type", "title"]`, the
record with both set is valid despite missing contact, documents and
dates, and the record missing `title` is invalid. -/
theorem C8_is_valid_witness :
    is_valid articleBoth ["article_type".data, "title".data] = some true
    ∧ is_valid articleNoTitle ["article_type".data, "title".data] = some false :=
  ⟨(C8_is_valid articleBoth _ (by decide)).trans (by decide),
   (C8_is_valid articleNoTitle _ (by decide)).trans (by decide)⟩

/-- The `_build_contact` loop unrolled over the four configured keys. -/
theorem contactDict_eq (p : Str) :
    contactDict p =
      ((contactEntry "email".data p ++ contactEntry "tel".data p)
        ++ contactEntry "fax".data p) ++ contactEntry "addr".data p := by
  simp [contactDict, contactFields]

/-- An entry built for another key never answers a lookup for `f`. -/
theorem dictGet_contactEntry_ne (f g p : Str) (h : g ≠ f) :
    dictGet f (contactEntry g p) = none := by
  cases hs : searchG1 (contactRE g) p with
  | none => simp [contactEntry, hs, dictGet]
  | some v =>
    by_cases he : (pyStrip v).isEmpty <;>
      simp [contactEntry, hs, he, dictGet, h]

theorem dictGet_append_none {β : Type} (k : Str) (l1 l2 : List (Str × β))
    (h : dictGet k l1 = none) : dictGet k (l1 ++ l2) = dictGet k l2 := by
  rw [dictGet_append, h]

theorem dictGet_append_left {β : Type} (k : Str) (l1 l2 : List (Str × β))
    (h : dictGet k l2 = none) : dictGet k (l1 ++ l2) = dictGet k l1 := by
  rw [dictGet_append]
  cases hd : dictGet k l1 <;> simp [h]

/-- C9: for every paragraph and every one of the four contact fields —
each of whose patterns the loop attempts — a match whose first capture
is non-empty after trimming stores exactly that trimmed capture under
the field's key, and otherwise (no match, or a capture that trims to
empty) nothing is stored for that field and no error is raised. -/
theorem C9_contact (p f : Str) (hf : f ∈ contactFields) :
    (∀ g : Str, searchG1 (contactRE f) p = some g → pyStrip g ≠ [] →
      dictGet f (contactDict p) = some (pyStrip g))
    ∧ (searchG1 (contactRE f) p = none → dictGet f (contactDict p) = none)
    ∧ (∀ g : Str, searchG1 (contactRE f) p = some g → pyStrip g = [] →
      dictGet f (contactDict p) = none) := by
  have hne : ∀ g : Str, g ≠ f → dictGet f (contactEntry g p) = none :=
    fun g hg => dictGet_contactEntry_ne f g p hg
  have key : dictGet f (contactDict p) = dictGet f (contactEntry f p) := by
    rw [contactDict_eq]
    simp only [contactFields, List.mem_cons, List.not_mem_nil, or_false] at hf
    rcases hf with rfl | rfl | rfl | rfl
    · rw [dictGet_append_left _ _ _ (hne "addr".data (by decide)),
          dictGet_append_left _ _ _ (hne "fax".data (by decide)),
          dictGet_append_left _ _ _ (hne "tel".data (by decide))]
    · rw [dictGet_append_left _ _ _ (hne "addr".data (by decide)),
          dictGet_append_left _ _ _ (hne "fax".data (by decide)),
          dictGet_append_none _ _ _ (hne "email".data (by decide))]
    · rw [dictGet_append_left _ _ _ (hne "addr".data (by decide))]
      have h12 : dictGet "fax".data
          (contactEntry "email".data p ++ contactEntry "tel".data p) = none := by
        rw [dictGet_append_none _ _ _ (hne "email".data (by decide))]
        exact hne "tel".data (by decide)
      rw [dictGet_append_none _ _ _ h12]
    · have h12 : dictGet "addr".data
          (contactEntry "email".data p ++ contactEntry "tel".data p) = none := by
        rw [dictGet_append_none _ _ _ (hne "email".data (by decide))]
        exact hne "tel".data (by decide)
      have h123 : dictGet "addr".data
          ((contactEntry "email".data p ++ contactEntry "tel".data p)
            ++ contactEntry "fax".data p) = none := by
        rw [dictGet_append_none _ _ _ h12]
        exact hne "fax".data (by decide)
      rw [dictGet_append_none _ _ _ h123]
  refine ⟨?_, ?_, ?_⟩
  · intro g hs hg
    have hgf : (pyStrip g).isEmpty = false := by
      cases hp : pyStrip g with
      | nil => exact absurd hp hg
      | cons a b => rfl
    rw [key]
    simp [contactEntry, hs, hgf, dictGet]
  · intro hs
    rw [key]
    simp [contactEntry, hs, dictGet]
  · intro g hs hg
    rw [key]
    simp [contactEntry, hs, hg, dictGet]

/-- C9 witness: a paragraph containing only an email yields a contact
dict containing only the `email` key (with the trimmed capture). -/
theorem C9_contact_witness :
    dictGet "email".data (contactDict " a@bc.de ".data) = some "a@bc.de".data
    ∧ contactDict " a@bc.de ".data = [("email".data, "a@bc.de".data)] :=
  ⟨(C9_contact " a@bc.de ".data "email".data (by decide)).1
      "a@bc.de".data (by decide) (by decide),
   by decide⟩

end Externe
